import Mathlib

/-!
Shallow embedding of the allzpark launcher sources
(`allzpark/_rezapi.py`, `allzpark/cli.py`, `allzpark/delegates.py`,
`allzpark/resources.py`, `tests/util.py`) and proofs about the
behaviour of its operations.

Python machine-level details are modelled as follows: strings stay
strings, Python `None`-able arguments become `Option`, Python dicts
become association lists with unique keys, raised exceptions become
`Except` errors, and `os.pathsep` is modelled as the POSIX separator
character.
-/

namespace Allzpark

/-! ### Rez packages and the `_rezapi.py` shim

A rez package is modelled by its family name, its version (versions
are totally ordered; a `Nat` rank stands for the version object) and
the repository path it was found in.  A package database stands for
the state of the rez package repositories, in iteration order. -/

structure Package where
  name : String
  version : Nat
  repo : String
  deriving DecidableEq, Repr

/-- The rez exceptions that appear in this repository, plus the
exception classes the repository itself raises.  `origin` records
where each class is defined. -/
inductive ExcClass
  | packageNotFoundErr (msg : String)
  | userErr (msg : String)
  | ioErr
  | valueErr
  | plainExc (msg : String)
  deriving DecidableEq, Repr

/-- `rez.packages_.iter_packages`, imported as `find` in `_rezapi.py`:
iterate the packages of family `name`, restricted to versions inside
`range_` and to the repositories in `paths` when those are given. -/
def find (db : List Package) (name : String) (range_ : Option (Nat → Bool))
    (paths : Option (List String)) : List Package :=
  db.filter fun p =>
    p.name == name
      && (match range_ with | none => true | some r => r p.version)
      && (match paths with | none => true | some ps => ps.contains p.repo)

/-- `_rezapi.find_latest` (`_rezapi.py:38-47`): sort the family's
packages by version (Python's `sorted` is stable) and take the last;
an empty family raises `PackageNotFoundError`.  Note the source calls
`find(name, range_)`, leaving `paths` at its default `None`. -/
def find_latest (db : List Package) (name : String) (range_ : Option (Nat → Bool))
    (paths : Option (List String)) : Except ExcClass Package :=
  let it := find db name range_ none
  let it := it.insertionSort (fun a b => a.version ≤ b.version)
  match it.getLast? with
  | some p => .ok p
  | none => .error (.packageNotFoundErr ("package family not found: " ++ name))

/-! ### `delegates.py` — the `Package` item delegate -/

/-- The model data read by `Package.setModelData` for one index: the
`"family"`, `"versions"` and `"default"` roles. -/
structure PkgModelRow where
  family : String
  versions : List String
  default : String
  deriving DecidableEq, Repr

/-- The observable outcome of `Package.setModelData`: the request
string passed to `ctrl.patch` when a patch happens, and the writes
performed on the model (the method performs none — it only reads). -/
structure SetModelDataEffect where
  patched : Option String
  modelWrites : List (String × String)
  deriving DecidableEq, Repr

/-- `Package.setModelData` (`delegates.py:42-52`): read family,
versions and default from the model, pick the version at the editor's
current index, and return early when that version is empty or equals
the default; otherwise patch `"family==version"`. -/
def setModelData (row : PkgModelRow) (currentIndex : Nat) : SetModelDataEffect :=
  let package := row.family
  let options := row.versions
  let version := options.getD currentIndex ""
  if version = "" ∨ version = row.default then
    { patched := none, modelWrites := [] }
  else
    { patched := some (package ++ "==" ++ version), modelWrites := [] }

end Allzpark

namespace Allzpark

/-! ### `resources.py` — resource paths and the pixmap cache -/

/-- The module-level `dirname` of `resources.py` (the directory of the
module file). -/
def dirname : String := "allzpark"

/-- `resources.find` (`resources.py:13-16`): join `dirname`,
`"resources"` and the given components with the path separator and
conform the slashes. -/
def findPath (paths : List String) : String :=
  String.intercalate "/" (dirname :: "resources" :: paths)

/-- Index of the dot at which `os.path.splitext` splits `cs`: the last
dot that has some non-dot character before it (leading dots of a name
never start an extension). -/
def extSplitIdx (cs : List Char) : Option Nat :=
  ((List.range cs.length).filter fun i =>
    cs.getD i ' ' == '.' && ((List.range i).any fun j => cs.getD j ' ' != '.')).getLast?

/-- `os.path.splitext` on a bare file name. -/
def splitext (s : String) : String × String :=
  let cs := s.toList
  match extSplitIdx cs with
  | none => (s, "")
  | some i => (String.mk (cs.take i), String.mk (cs.drop i))

/-- The `_cache` dict of `resources.py`, keyed by the `paths` tuple;
the stored value is modelled by the file path the cached `QPixmap` was
constructed from. -/
abbrev PixmapCache := List (List String × String)

/-- `resources.pixmap` (`resources.py:19-33`): compute `find(*paths)`,
append `".png"` to the local `path` variable when the last component
has no extension, then answer from the cache or construct the pixmap —
from `find(*paths)` (line 30), not from the defaulted `path`.  Returns
the path the answered pixmap was loaded from and the updated cache. -/
def pixmap (cache : PixmapCache) (paths : List String) : String × PixmapCache :=
  let path := findPath paths
  let basename := paths.getLastD ""
  let ext := (splitext basename).2
  let _pathDefaulted := if ext = "" then path ++ ".png" else path
  match cache.lookup paths with
  | some pm => (pm, cache)
  | none =>
      let pm := findPath paths
      (pm, (paths, pm) :: cache)

/-! ### `resources.py` — palettes -/

/-- A Python dict key: the palettes mapping set in `allzparkconfig`
may use any hashable key; strings and ints are modelled. -/
inductive PyKey
  | str (s : String)
  | int (n : Int)
  deriving DecidableEq, Repr

def PyKey.isStr : PyKey → Bool
  | .str _ => true
  | .int _ => false

/-- One palette: a mapping from role names to colour strings. -/
abbrev Palette := List (String × String)

/-- Python `dict.update`: keys already present keep their position and
take the updating dict's value; new keys are appended in the updating
dict's order. -/
def dictUpdate (base upd : List (PyKey × Palette)) : List (PyKey × Palette) :=
  (base.map fun kv =>
    match upd.lookup kv.1 with
    | some v => (kv.1, v)
    | none => kv)
  ++ upd.filter fun kv => !(base.map Prod.fst).contains kv.1

/-- The literal `palettes` dict of `load_palettes`
(`resources.py:58-84`). -/
def defaultPalettes : List (PyKey × Palette) :=
  [(.str "dark",
    [("brightest", "#403E3D"), ("bright", "#383635"), ("base", "#2E2C2C"),
     ("dim", "#21201F"), ("dimmest", "#141413"),
     ("highlight", "#69D6C2"), ("highlighted", "#111111"),
     ("active", "silver"), ("inactive", "dimGray")]),
   (.str "light",
    [("brightest", "#E9EAE6"), ("bright", "#DBDFDE"), ("base", "#D7D8D2"),
     ("dim", "#B3BABD"), ("dimmest", "#AEAEAF"),
     ("highlight", "#69D6C2"), ("highlighted", "#111111"),
     ("active", "black"), ("inactive", "darkSlateGray")])]

/-- `resources.load_palettes` (`resources.py:57-88`):
`allzparkconfig.palettes` is `None` (attribute unset) or a mapping;
`if allzparkconfig.palettes:` is Python truthiness, so `None` and an
empty mapping both skip the update. -/
def load_palettes (configPalettes : Option (List (PyKey × Palette))) :
    List (PyKey × Palette) :=
  let palettes := defaultPalettes
  match configPalettes with
  | none => palettes
  | some [] => palettes
  | some cp => dictUpdate palettes cp

end Allzpark

namespace Allzpark

/-! ### `tests/util.py` — the `wait` event-timeout helper

`wait` spins a local Qt event loop with a single-shot timer at
`timeout` milliseconds.  A run of the loop is modelled by the
chronological list of `(time, value)` emissions of the awaited signal;
the loop quits at the first emission accepted by the connected trigger
or, failing that, when the timer fires at `timeout`.  Emitted values
are modelled as `Int` so that Python truthiness is expressible. -/

def truthy (v : Int) : Bool := v != 0

/-- The trigger `wait` connects to the signal (`tests/util.py:20-28`):
`if on_value:` is Python truthiness, so the value-comparing trigger is
installed only when `on_value` is given and truthy; otherwise the
generic quit-on-anything trigger is installed. -/
def triggerAccepts (on_value : Option Int) (v : Int) : Bool :=
  match on_value with
  | some ov => if truthy ov then v == ov else true
  | none => true

/-- Whether the loop quits through the trigger (so `state["timeout"]`
ends up `False`): scan the chronological emissions; an emission at a
time `< timeout` either quits the loop (trigger accepts) or is
ignored; the timer ends the loop at `timeout`. -/
def waitRun (on_value : Option Int) (timeout : Nat) : List (Nat × Int) → Bool
  | [] => false
  | (t, v) :: rest =>
      if t < timeout then
        if triggerAccepts on_value v then true else waitRun on_value timeout rest
      else false

/-- `tests/util.wait` (`tests/util.py:14-36`): returns normally when
the trigger quit the loop, raises `Exception("Signal waiting
timeout.")` otherwise. -/
def wait (firings : List (Nat × Int)) (on_value : Option Int) (timeout : Nat) :
    Except ExcClass Unit :=
  if waitRun on_value timeout firings then .ok ()
  else .error (.plainExc "Signal waiting timeout.")

/-- The success condition stated by the specification claim, for
comparison with `wait`: some firing occurs before the timeout whose
emitted value equals `on_value` whenever `on_value` is given. -/
def waitSpecSucceeds (firings : List (Nat × Int)) (on_value : Option Int)
    (timeout : Nat) : Bool :=
  firings.any fun f =>
    f.1 < timeout && (match on_value with | some ov => f.2 == ov | none => true)

/-! ### `cli.py` — native environment resolution -/

/-- The POSIX `os.pathsep`. -/
def pathsep : String := ":"

/-- Python `str.split(sep)` on character lists: split at every
occurrence of `sep`, keeping empty pieces (`"".split(sep)` is
`[""]`). -/
def splitChars (sep : Char) : List Char → List (List Char)
  | [] => [[]]
  | c :: cs =>
      match splitChars sep cs with
      | [] => [[]]
      | r :: rs => if c = sep then [] :: r :: rs else (c :: r) :: rs

/-- Python `value.split(os.pathsep)`. -/
def splitPathsep (s : String) : List String :=
  (splitChars ':' s.toList).map String.mk

/-- Python `os.pathsep.join(paths)`. -/
def joinPathsep (l : List String) : String :=
  String.intercalate pathsep l

/-- The state of a `rez.resolved_context.ResolvedContext` object as
touched by this repository: the `append_sys_path` attribute and the
environment dict `get_environ()` yields (used by
`_resolve_native_environ`), and the `suite_context_name` attribute
(read by `_rezapi.is_from_suite`; `""` models the falsy
`None`/empty name of a context not belonging to a suite). -/
structure ResolvedContext where
  append_sys_path : Bool
  environ : List (String × String)
  suite_context_name : String
  deriving DecidableEq, Repr

/-- `_rezapi.is_from_suite` (`_rezapi.py:50-51`):
`package.context and package.context.suite_context_name` — a
truthiness test over the package's context (`none` for a package
without one).  The context state is returned alongside the result: the
operation only reads it. -/
def is_from_suite (context : Option ResolvedContext) :
    Bool × Option ResolvedContext :=
  match context with
  | none => (false, none)
  | some c => (c.suite_context_name != "", some c)

/-- `history.get(key, "")` on the environment dict. -/
def envGetD (env : List (String × String)) (key : String) : String :=
  (env.lookup key).getD ""

/-- The rollback loop of `_resolve_native_environ`
(`cli.py:183-197`): for every variable of the current process
environment, keep exactly the path components absent from the context's
historical value; variables with no such component are dropped. -/
def rollbackEnviron (history changed : List (String × String)) :
    List (String × String) :=
  changed.filterMap fun kv =>
    let changed_paths := splitPathsep kv.2
    let history_paths := splitPathsep (envGetD history kv.1)
    let roll_paths := changed_paths.filter fun p => !history_paths.contains p
    if roll_paths.isEmpty then none
    else some (kv.1, joinPathsep roll_paths)

/-- `cli._resolve_native_environ` (`cli.py:147-197`).  Inputs: the
`inherit_parent_environment` rez setting, the context loaded from
`$REZ_RXT_FILE` (`none` when that variable is unset), the current
`os.environ`, and the environment a fresh shell would report (the
bleeding-rez branch).  Output: the returned mapping (`none` models the
bare `return`), paired with the state of the loaded context object
after the call — line 179 assigns `current.append_sys_path = False`
and line 182 calls `current.get_environ()`. -/
def resolve_native_environ (inheritParentEnv : Bool)
    (rxtCtx : Option ResolvedContext)
    (osEnviron shellEnviron : List (String × String)) :
    Option (List (String × String)) × Option ResolvedContext :=
  if !inheritParentEnv then
    (some shellEnviron, rxtCtx)
  else
    match rxtCtx with
    | none => (none, none)
    | some current =>
        let current := { current with append_sys_path := false }
        let history := current.environ
        (some (rollbackEnviron history osEnviron), some current)

/-! ### Resolved-context access inventory

Every access to a resolved-context object's internals performed by any
operation of the sources, transcribed from the sources. -/

/-- One access to a resolved-context object: reading or assigning one
of its attributes (a method such as `get_environ` counts as a read of
what it yields). -/
inductive CtxAccess
  | readAttr (attr : String)
  | writeAttr (attr : String)
  deriving DecidableEq, Repr

/-- The resolved-context accesses of each operation in the sources:
`_resolve_native_environ` assigns `append_sys_path` (`cli.py:179`) and
reads the environment via `get_environ` (`cli.py:182`);
`is_from_suite` reads `suite_context_name` (`_rezapi.py:51`), and
`RezApp.__init__` does so through it (`_rezapi.py:67`); every other
operation touches no resolved-context internals. -/
def ctxAccesses : List (String × List CtxAccess) :=
  [("cli.main", []),
   ("cli._load_userconfig", []),
   ("cli._backwards_compatibility", []),
   ("cli._patch_allzparkconfig", []),
   ("cli._find_rez_bin_in_context", []),
   ("cli._patch_rez_bin_path", []),
   ("cli._resolve_native_environ",
    [.writeAttr "append_sys_path", .readAttr "get_environ"]),
   ("cli.timings", []),
   ("cli.tell", []),
   ("cli.warn", []),
   ("delegates.Package", []),
   ("resources.px", []),
   ("resources.find", []),
   ("resources.pixmap", []),
   ("resources.icon", []),
   ("resources.load_style", []),
   ("resources.load_palettes", []),
   ("resources._load_fonts", []),
   ("_rezapi.clear_caches", []),
   ("_rezapi.find_one", []),
   ("_rezapi.find_latest", []),
   ("_rezapi.is_from_suite", [.readAttr "suite_context_name"]),
   ("_rezapi.uni_request_key", []),
   ("_rezapi.RezApp", [.readAttr "suite_context_name"]),
   ("tests.util.memory_repository", []),
   ("tests.util.wait", [])]

/-- Modelled from the spec: the `control`, `view` and `util` modules
imported by `cli.main` are not among the given sources; per the
specification's glossary a resolved context is "consumed here only as
an opaque result", so their operations touch no resolved-context
internals. -/
def guiModulesCtxAccesses : List (String × List CtxAccess) :=
  [("control.Controller", []),
   ("view.Window", []),
   ("util.windows_taskbar_compat", [])]

end Allzpark

namespace Allzpark

/-! ### `cli.py` — the persistent settings store

`QtCore.QSettings` values as written by `main` (`cli.py:405-433`). -/

/-- A value stored with `storage.setValue`. -/
inductive QVal
  | str (s : String)
  | num (n : Int)
  | boolean (b : Bool)
  | strList (l : List String)
  deriving DecidableEq, Repr

/-- Whether a stored value is a primitive (string, number or
boolean) rather than a compound structure. -/
def QVal.isPrimitive : QVal → Bool
  | .strList _ => false
  | _ => true

/-- The runtime facts `main` reads when building the `defaults` dict:
interpreter and binding descriptions, the rez configuration, and the
`allzparkconfig` startup attributes (`""` models a falsy/unset
attribute, matching `if allzparkconfig.startup_profile:`). -/
structure MainEnv where
  memcachedURI : String
  pythonExe : String
  pythonVersion : String
  qtVersion : String
  qtBinding : String
  qtBindingVersion : String
  rezLocation : String
  rezVersion : String
  rezConfigFile : String
  packages_path : List String
  local_packages_path : String
  release_packages_path : String
  settingsPath : String
  startup_profile : String
  startup_application : String
  demo : Bool
  deriving Repr

/-- The entries `main` writes to the persistent settings store, in
write order (`cli.py:405-433`): the `defaults` dict, then the
conditional `startupProfile`, `startupApp` and `useDevelopmentPackages`
writes.  `config.packages_path` is a list, and the local/release paths
are `split(os.pathsep)` — lists as well. -/
def settingsWrites (e : MainEnv) : List (String × QVal) :=
  [("memcachedURI", .str e.memcachedURI),
   ("pythonExe", .str e.pythonExe),
   ("pythonVersion", .str e.pythonVersion),
   ("qtVersion", .str e.qtVersion),
   ("qtBinding", .str e.qtBinding),
   ("qtBindingVersion", .str e.qtBindingVersion),
   ("rezLocation", .str e.rezLocation),
   ("rezVersion", .str e.rezVersion),
   ("rezConfigFile", .str e.rezConfigFile),
   ("rezPackagesPath", .strList e.packages_path),
   ("rezLocalPath", .strList (splitPathsep e.local_packages_path)),
   ("rezReleasePath", .strList (splitPathsep e.release_packages_path)),
   ("settingsPath", .str e.settingsPath)]
  ++ (if e.startup_profile ≠ "" then [("startupProfile", .str e.startup_profile)] else [])
  ++ (if e.startup_application ≠ "" then [("startupApp", .str e.startup_application)] else [])
  ++ (if e.demo then [("useDevelopmentPackages", .boolean true)] else [])

/-! ### `cli.py` — exceptions and error handling

An inventory of every `raise` in the repository's own code and of
every exception handler, transcribed from the sources. -/

/-- Where an exception class is defined. -/
inductive ExcOrigin
  | rezHierarchy
  | builtin
  | repoDefined
  deriving DecidableEq, Repr

/-- The defining module of each exception class raised by this
repository: `PackageNotFoundError` comes from `rez.exceptions`;
`IOError`, `ValueError` and bare `Exception` are Python builtins;
`UserError` is created at `cli.py:16`. -/
def ExcClass.origin : ExcClass → ExcOrigin
  | .packageNotFoundErr _ => .rezHierarchy
  | .userErr _ => .repoDefined
  | .ioErr => .builtin
  | .valueErr => .builtin
  | .plainExc _ => .builtin

/-- Every `raise` site in the repository's own operations. -/
def raiseSites : List (String × ExcClass) :=
  [("_rezapi.find_latest", .packageNotFoundErr "package family not found: %s"),
   ("cli._load_userconfig/IOError", .ioErr),
   ("cli._load_userconfig/exec", .userErr "Better double-check your user config"),
   ("cli.main/settings", .valueErr),
   ("tests.util.wait/timeout", .plainExc "Signal waiting timeout.")]

/-- What an exception handler in the repository does with the caught
exception. -/
inductive HandlerAction
  | reraise
  | exitProcess
  | raiseNew (c : ExcClass)
  | swallow
  | retryOp
  deriving DecidableEq, Repr

/-- Every `except` clause in the repository's own code and its
action, transcribed from the sources. -/
def handlerSites : List (String × HandlerAction) :=
  [("cli._load_userconfig/IOError", .reraise),
   ("cli._load_userconfig/Exception", .raiseNew (.userErr "Better double-check your user config")),
   ("cli.timings/Exception", .exitProcess),
   ("cli.main/demo ImportError", .reraise),
   ("cli.main/rez ImportError", .exitProcess),
   ("cli.main/Qt ImportError", .swallow),
   ("cli.main/settings ValueError", .raiseNew .valueErr),
   ("cli.main/userconfig IOError", .swallow),
   ("cli.main/localz ImportError", .swallow),
   ("cli.main/profiles_from_dir IOError", .swallow),
   ("resources.pixmap/KeyError", .swallow),
   ("_rezapi.find_latest/IndexError", .raiseNew (.packageNotFoundErr "package family not found: %s")),
   ("_rezapi/project ImportError", .swallow)]

/-- `cli._load_userconfig` (`cli.py:19-50`) restricted to its error
behaviour: `fileContent` is the result of `open` (`none` raises
`IOError`, re-raised unchanged), `execFails` tells whether executing
the config module raises, in which case `UserError` is raised. -/
def load_userconfig (fileContent : Option String) (execFails : Bool)
    (fname : String) : Except ExcClass String :=
  match fileContent with
  | none => .error .ioErr
  | some _ =>
      if execFails then .error (.userErr "Better double-check your user config")
      else .ok fname

end Allzpark

namespace Allzpark

/-! ### `cli.py` — the boot sequence of `main`

`main` (`cli.py:234-515`) is straight-line code with early exits:
`exit(0)` for `--version` and `exit(1)` from a failed `timings` block.
A run is modelled as the list of boot steps performed, in order, as a
function of the flags and the outcomes of the fallible steps. -/

inductive Step
  | parseArgs
  | redirectStdio
  | printVersion
  | banner
  | configureLogging
  | loadDemo
  | loadRez
  | patchRezBinPath
  | resolveNativeEnv
  | loadQt
  | registerVendorModules
  | loadAllzparkModules
  | patchAllzparkConfig
  | loadUserConfig
  | backwardsCompat
  | installSigint
  | setCatchRexErrors
  | loadPreferences
  | checkLocalz
  | createQApp
  | createController
  | installExcepthook
  | loadThemes
  | createWindow
  | showWindow
  | scheduleInit
  | execEventLoop
  deriving DecidableEq, Repr, Fintype

/-- The parsed flags of `main` that steer its boot control flow:
`--version`, `--demo`, and whether `sys.stdout` is absent (the
console-less branch).  `--verbose`, `--clean`, `--config-file`,
`--no-config` and `--root` change no step ordering (`--no-config` is
parsed but never consulted). -/
structure Opts where
  version : Bool
  demo : Bool
  noConsole : Bool
  deriving DecidableEq, Repr, Fintype

/-- Outcome of `_load_userconfig` inside `main`: success, `IOError`
(caught and passed), or any other failure (the `UserError` raised for
a broken config, which aborts the `timings` block). -/
inductive UCOutcome
  | ok
  | ioError
  | badConfig
  deriving DecidableEq, Repr, Fintype

/-- Outcomes of the fallible boot steps. -/
structure BootEnv where
  demoImportOk : Bool
  rezImportOk : Bool
  qtImportOk : Bool
  userConfig : UCOutcome
  settingsReadOk : Bool
  deriving DecidableEq, Repr, Fintype

/-- The ordered list of boot steps a run of `main` performs, given the
flags and the fallible-step outcomes; a failed `timings` block calls
`exit(1)`, truncating the run after the failing step. -/
def mainTrace (o : Opts) (e : BootEnv) : List Step :=
  [Step.parseArgs]
  ++ (if o.noConsole then [Step.redirectStdio] else [])
  ++ (if o.version then [Step.printVersion] else
      [Step.banner, Step.configureLogging]
      ++ (if o.demo && !e.demoImportOk then [Step.loadDemo] else
          (if o.demo then [Step.loadDemo] else [])
          ++ (if !e.rezImportOk then [Step.loadRez] else
              [Step.loadRez, Step.patchRezBinPath, Step.resolveNativeEnv]
              ++ (if !e.qtImportOk then [Step.loadQt] else
                  [Step.loadQt, Step.registerVendorModules,
                   Step.loadAllzparkModules, Step.patchAllzparkConfig,
                   Step.loadUserConfig]
                  ++ (if e.userConfig == UCOutcome.badConfig then [] else
                      [Step.backwardsCompat, Step.installSigint,
                       Step.setCatchRexErrors, Step.loadPreferences]
                      ++ (if !e.settingsReadOk then [] else
                          [Step.checkLocalz, Step.createQApp,
                           Step.createController, Step.installExcepthook,
                           Step.loadThemes, Step.createWindow, Step.showWindow,
                           Step.scheduleInit, Step.execEventLoop]))))))

/-- The bootstrap milestones named by the specification, in the order
it states them. -/
def keySteps : List Step :=
  [Step.configureLogging, Step.loadUserConfig, Step.createQApp,
   Step.execEventLoop]

/-- `isSubseq xs ys`: `xs` is a subsequence of `ys` (order-preserving,
not necessarily contiguous). -/
def isSubseq : List Step → List Step → Bool
  | [], _ => true
  | _ :: _, [] => false
  | a :: as, b :: bs => if a = b then isSubseq as bs else isSubseq (a :: as) bs

/-! ### Concurrency inventory

Every operation of the sources, with the concurrency-related
primitives its code uses, transcribed from the sources. -/

inductive ConcurrencyPrimitive
  | osThread
  | workerPool
  | customScheduler
  | toolkitEventLoop
  | toolkitTimer
  | toolkitSignalConnect
  | osSignalDisposition
  deriving DecidableEq, Repr

/-- A primitive that would create concurrency of the program's own
(threads, pools, schedulers), as opposed to what the GUI toolkit or
the OS provides natively. -/
def ConcurrencyPrimitive.ownConcurrency : ConcurrencyPrimitive → Bool
  | .osThread => true
  | .workerPool => true
  | .customScheduler => true
  | _ => false

/-- The concurrency-related primitives used by each operation in the
sources: `main` installs a SIGINT disposition, schedules a single-shot
timer and runs the Qt event loop; `wait` spins a local event loop with
a single-shot timer and a signal connection; the delegate connects Qt
signals; everything else uses none. -/
def repoConcurrencyUse : List (String × List ConcurrencyPrimitive) :=
  [("cli.main",
    [.osSignalDisposition, .toolkitTimer, .toolkitEventLoop]),
   ("cli._load_userconfig", []),
   ("cli._backwards_compatibility", []),
   ("cli._patch_allzparkconfig", []),
   ("cli._find_rez_bin_in_context", []),
   ("cli._patch_rez_bin_path", []),
   ("cli._resolve_native_environ", []),
   ("cli.timings", []),
   ("cli.tell", []),
   ("cli.warn", []),
   ("delegates.Package",
    [.toolkitSignalConnect]),
   ("resources.px", []),
   ("resources.find", []),
   ("resources.pixmap", []),
   ("resources.icon", []),
   ("resources.load_style", []),
   ("resources.load_palettes", []),
   ("resources._load_fonts", []),
   ("_rezapi.clear_caches", []),
   ("_rezapi.find_one", []),
   ("_rezapi.find_latest", []),
   ("_rezapi.is_from_suite", []),
   ("_rezapi.uni_request_key", []),
   ("_rezapi.RezApp", []),
   ("tests.util.memory_repository", []),
   ("tests.util.wait",
    [.toolkitSignalConnect, .toolkitTimer, .toolkitEventLoop])]

/-- Modelled from the spec: the `control`, `view` and `util` modules
imported by `cli.main` are not among the given sources; per the
specification's concurrency section they are event-loop driven GUI
wiring with no custom scheduling, no worker pools and no cancellation
beyond the toolkit's, so their operations use only toolkit
primitives. -/
def guiModulesConcurrencyUse : List (String × List ConcurrencyPrimitive) :=
  [("control.Controller",
    [.toolkitSignalConnect, .toolkitTimer]),
   ("view.Window",
    [.toolkitSignalConnect]),
   ("util.windows_taskbar_compat", [])]

end Allzpark

namespace Allzpark

/-! ### Concrete inputs for counterexamples -/

/-- A runtime environment for `main` with a two-entry
`config.packages_path`, as in a stock rez configuration. -/
def sampleMainEnv : MainEnv :=
  { memcachedURI := "None"
    pythonExe := "/usr/bin/python"
    pythonVersion := "3.7.0.final.0"
    qtVersion := "5.12.0"
    qtBinding := "PySide2"
    qtBindingVersion := "5.12.0"
    rezLocation := "/rez"
    rezVersion := "2.47.0"
    rezConfigFile := "None"
    packages_path := ["/packages/int", "/packages/ext"]
    local_packages_path := "/home/user/packages"
    release_packages_path := "/packages/ext"
    settingsPath := "/home/user/.config/Allzpark/preferences.ini"
    startup_profile := ""
    startup_application := ""
    demo := false }

/-- A resolved context loaded from `$REZ_RXT_FILE`, with
`append_sys_path` still at its default `True` and not belonging to a
suite. -/
def sampleCtx : ResolvedContext :=
  { append_sys_path := true, environ := [("PATH", "/rez/bin")],
    suite_context_name := "" }

/-- The keys of a palettes dict. -/
def dictKeys (d : List (PyKey × Palette)) : List PyKey := d.map Prod.fst

end Allzpark

namespace Allzpark

/-! ## Theorems -/

/-- C2: for every package family name and version range, and for any
two values of the `paths` argument (including `None`),
`find_latest(name, range_, paths)` returns the same package or raises
the same error: its result is independent of `paths`, which is
accepted as a parameter but never forwarded to the underlying package
query. -/
theorem find_latest_paths_independent (db : List Package) (name : String)
    (range_ : Option (Nat → Bool)) (paths₁ paths₂ : Option (List String)) :
    find_latest db name range_ paths₁ = find_latest db name range_ paths₂ := rfl

/-- C5: `Package.setModelData` invokes the controller's patch
operation exactly when the version selected in the editor is non-empty
and differs from the model's default version, and it performs no write
on the model in any case. -/
theorem setModelData_patch_iff (row : PkgModelRow) (i : Nat)
    (h : i < row.versions.length) :
    ((setModelData row i).patched ≠ none ↔
      (row.versions.get ⟨i, h⟩ ≠ "" ∧ row.versions.get ⟨i, h⟩ ≠ row.default)) ∧
    (setModelData row i).modelWrites = [] := by
  have hD : row.versions.getD i "" = row.versions.get ⟨i, h⟩ := by
    rw [List.getD_eq_getElem?_getD, List.getElem?_eq_getElem h]
    rfl
  constructor
  · by_cases hc : row.versions.get ⟨i, h⟩ = "" ∨ row.versions.get ⟨i, h⟩ = row.default
    · simp only [setModelData, hD, if_pos hc]
      simp only [ne_eq, not_true_eq_false, iff_false, not_and, not_not]
      tauto
    · simp only [setModelData, hD, if_neg hc]
      push_neg at hc
      exact ⟨fun _ => hc, fun _ => by simp⟩
  · simp only [setModelData]
    split <;> rfl

/-- C5 witness: at a concrete row whose editor selects version
`"2020"` over default `"2019"`, the patch fires. -/
theorem setModelData_patch_iff_witness :
    ((setModelData ⟨"maya", ["2019", "2020"], "2019"⟩ 1).patched ≠ none ↔
      ((["2019", "2020"] : List String).get ⟨1, by decide⟩ ≠ "" ∧
       (["2019", "2020"] : List String).get ⟨1, by decide⟩ ≠ "2019")) ∧
    (setModelData ⟨"maya", ["2019", "2020"], "2019"⟩ 1).modelWrites = [] :=
  setModelData_patch_iff ⟨"maya", ["2019", "2020"], "2019"⟩ 1 (by decide)

end Allzpark

namespace Allzpark

/-- A pixmap cache is well-formed when each cached entry was
constructed from `find` of its key — the invariant every insertion of
`pixmap` maintains. -/
theorem cache_lookup_wf (cache : PixmapCache) (paths : List String) (pm : String)
    (hwf : ∀ kv ∈ cache, kv.2 = findPath kv.1)
    (hc : cache.lookup paths = some pm) : pm = findPath paths := by
  induction cache with
  | nil => simp [List.lookup] at hc
  | cons kv rest ih =>
      rw [List.lookup] at hc
      cases hk : (paths == kv.1) with
      | true =>
          simp only [hk] at hc
          have hkey : paths = kv.1 := eq_of_beq hk
          have := hwf kv (List.mem_cons_self kv rest)
          cases hc
          rw [this, hkey]
      | false =>
          simp only [hk] at hc
          exact ih (fun e he => hwf e (List.mem_cons_of_mem kv he)) hc

/-- C8: for every cache state consistent with how `pixmap` fills it
and every `paths` argument, the pixmap `pixmap(*paths)` answers was
constructed from exactly the path `find(*paths)`: the `".png"`
extension defaulting computed inside `pixmap` never changes which file
is loaded, also when the last path component has no extension. -/
theorem pixmap_loads_find (cache : PixmapCache) (paths : List String)
    (hwf : ∀ kv ∈ cache, kv.2 = findPath kv.1) :
    (pixmap cache paths).1 = findPath paths := by
  unfold pixmap
  cases hc : cache.lookup paths with
  | none => simp
  | some pm => simpa using cache_lookup_wf cache paths pm hwf hc

/-- C8 witness: on the empty cache and an extensionless component, the
loaded path is `find` of the components (and not the `".png"`-extended
path the claim guards against). -/
theorem pixmap_loads_find_witness :
    (pixmap [] ["icons", "maya"]).1 = findPath ["icons", "maya"] :=
  pixmap_loads_find [] ["icons", "maya"] (by intro kv hkv; cases hkv)

/-- C3 counterexample: `main` stores the entry `rezPackagesPath` with
a list value — a compound structure, not a primitive — so not every
entry written to the persistent settings store has a primitive
value. -/
theorem settingsWrites_compound_value :
    ("rezPackagesPath", QVal.strList ["/packages/int", "/packages/ext"])
        ∈ settingsWrites sampleMainEnv ∧
    QVal.isPrimitive (QVal.strList ["/packages/int", "/packages/ext"]) = false := by
  refine ⟨?_, rfl⟩
  simp [settingsWrites, sampleMainEnv]

/-- C3 as amended: every entry `main` writes to the persistent
settings store has a string key; every value is a primitive except the
three entries `rezPackagesPath`, `rezLocalPath` and `rezReleasePath`,
whose values are lists of strings. -/
theorem settingsWrites_shape (e : MainEnv) :
    (settingsWrites e).all (fun kv =>
      kv.2.isPrimitive
        || (["rezPackagesPath", "rezLocalPath", "rezReleasePath"].contains kv.1
            && (match kv.2 with | .strList _ => true | _ => false))) = true := by
  unfold settingsWrites
  split <;> split <;> split <;> rfl

/-- C6 counterexample: resolved contexts are not consumed opaquely:
`_resolve_native_environ` flips the loaded context's
`append_sys_path` attribute from `True` to `False` and computes its
result from the context's internal environment (two contexts differing
only in `environ` yield different results), and `is_from_suite`'s
result depends on the context's `suite_context_name` attribute. -/
theorem resolve_native_environ_mutates :
    sampleCtx.append_sys_path = true ∧
    (resolve_native_environ true (some sampleCtx)
        [("PATH", "/rez/bin:/usr/bin")] []).2 =
      some { append_sys_path := false, environ := [("PATH", "/rez/bin")],
             suite_context_name := "" } ∧
    (resolve_native_environ true (some sampleCtx)
        [("PATH", "/rez/bin:/usr/bin")] []).1 =
      some [("PATH", "/usr/bin")] ∧
    (resolve_native_environ true (some { sampleCtx with environ := [] })
        [("PATH", "/rez/bin:/usr/bin")] []).1 =
      some [("PATH", "/rez/bin:/usr/bin")] ∧
    (is_from_suite (some sampleCtx)).1 = false ∧
    (is_from_suite (some { sampleCtx with suite_context_name := "beta" })).1
      = true := by
  refine ⟨rfl, ?_, ?_, ?_, rfl, ?_⟩ <;> decide

/-- C6 as amended: no operation mutates a resolved-context attribute
except `_resolve_native_environ`, whose only write is setting the
loaded context's `append_sys_path` to `False`; the context's internals
are read only by `_resolve_native_environ` (the environment, via
`get_environ`, from which its rollback result is computed) and by
`is_from_suite` — and `RezApp.__init__` through it — which reads
`suite_context_name` and leaves the context unchanged; every other
operation, the spec-modelled GUI modules included, consumes resolved
contexts opaquely. -/
theorem resolve_native_environ_ctx_effect (ctx : ResolvedContext)
    (osEnv shellEnv : List (String × String)) (sctx : Option ResolvedContext) :
    ((ctxAccesses ++ guiModulesCtxAccesses).all fun op =>
      op.2.isEmpty
        || op.1 == "cli._resolve_native_environ"
        || op.1 == "_rezapi.is_from_suite"
        || op.1 == "_rezapi.RezApp") = true ∧
    ((ctxAccesses ++ guiModulesCtxAccesses).all fun op =>
      op.2.all fun a =>
        match a with
        | .writeAttr attr =>
            op.1 == "cli._resolve_native_environ" && attr == "append_sys_path"
        | .readAttr _ => true) = true ∧
    (is_from_suite sctx).2 = sctx ∧
    (resolve_native_environ true (some ctx) osEnv shellEnv).2 =
      some { ctx with append_sys_path := false } ∧
    (resolve_native_environ true (some ctx) osEnv shellEnv).1 =
      some (rollbackEnviron ctx.environ osEnv) ∧
    (resolve_native_environ false (some ctx) osEnv shellEnv).2 = some ctx := by
  refine ⟨by decide, by decide, ?_, rfl, rfl, rfl⟩
  cases sctx <;> rfl

/-- C1 counterexample: the repository defines an original exception
type — `UserError`, created at `cli.py:16` — and its own operation
`_load_userconfig` raises it when executing the user configuration
fails, so not every exception raised by the repository's own
operations belongs to the wrapped package manager's hierarchy. -/
theorem userError_original_counterexample :
    ("cli._load_userconfig/exec",
      ExcClass.userErr "Better double-check your user config") ∈ raiseSites ∧
    (ExcClass.userErr "Better double-check your user config").origin =
      ExcOrigin.repoDefined ∧
    load_userconfig (some "profiles = []") true "~/allzparkconfig.py" =
      Except.error (ExcClass.userErr "Better double-check your user config") := by
  refine ⟨?_, rfl, rfl⟩
  simp [raiseSites]

/-- C1 as amended: with the single exception of `UserError` — the one
original exception type, defined in `cli.py` and raised by
`_load_userconfig` for a broken user configuration — every exception
raised by the repository's own operations belongs to the wrapped
package manager's hierarchy or is a Python builtin surfaced via the
generic unhandled-exception hook, and no exception handler in the
repository performs recovery or retry logic. -/
theorem exceptions_inventory :
    (raiseSites.all fun site =>
      site.2.origin == ExcOrigin.rezHierarchy
        || site.2.origin == ExcOrigin.builtin
        || site.2 == ExcClass.userErr "Better double-check your user config")
      = true ∧
    (handlerSites.all fun h => h.2 != HandlerAction.retryOp) = true := by
  refine ⟨?_, ?_⟩ <;> decide

/-- C10: no operation in the repository creates threads, worker pools
or custom schedulers: every concurrency-related primitive used by any
operation — the GUI modules included, as modelled from the
specification — is one the GUI toolkit or the OS provides natively
(event loops, single-shot timers, signal connections, a SIGINT
disposition). -/
theorem no_own_concurrency :
    ((repoConcurrencyUse ++ guiModulesConcurrencyUse).all fun op =>
      op.2.all fun p => !p.ownConcurrency) = true := rfl

end Allzpark

namespace Allzpark

/-- On a chronological emission list, the loop quits through the
trigger exactly when some emission strictly before the timeout is
accepted by the trigger. -/
theorem waitRun_eq_any (on_value : Option Int) (timeout : Nat)
    (firings : List (Nat × Int))
    (hchron : firings.Pairwise fun a b => a.1 ≤ b.1) :
    waitRun on_value timeout firings =
      firings.any fun f => f.1 < timeout && triggerAccepts on_value f.2 := by
  induction firings with
  | nil => rfl
  | cons f rest ih =>
      obtain ⟨hle, hrest⟩ := List.pairwise_cons.mp hchron
      obtain ⟨t, v⟩ := f
      by_cases ht : t < timeout
      · by_cases ha : triggerAccepts on_value v = true
        · simp [waitRun, ht, ha]
        · simp only [Bool.not_eq_true] at ha
          simp [waitRun, ht, ha, ih hrest]
      · have hnone :
            (rest.any fun f => f.1 < timeout && triggerAccepts on_value f.2)
              = false := by
          rw [List.any_eq_false]
          intro x hx
          have hxt := hle x hx
          simp only [Bool.and_eq_true, decide_eq_true_eq, not_and]
          intro hlt
          omega
        simp [waitRun, ht, hnone]

/-- C4 counterexample: with `on_value = 0` — given, but falsy — and a
single emission of the value `7` at 5 ms, `wait` returns normally even
though no emission equal to `on_value` occurred within the 1000 ms
timeout, where the claim demands an exception. -/
theorem wait_falsy_on_value_counterexample :
    wait [(5, 7)] (some 0) 1000 = Except.ok () ∧
    waitSpecSucceeds [(5, 7)] (some 0) 1000 = false :=
  ⟨rfl, rfl⟩

/-- C4 as amended: on a chronological emission list, `wait` returns
normally if and only if some emission strictly before the timeout is
accepted by the installed trigger — equal to `on_value` when
`on_value` is given and truthy, any value when `on_value` is absent or
falsy — and raises an exception otherwise. -/
theorem wait_ok_iff (firings : List (Nat × Int)) (on_value : Option Int)
    (timeout : Nat) (hchron : firings.Pairwise fun a b => a.1 ≤ b.1) :
    wait firings on_value timeout = Except.ok () ↔
      (firings.any fun f => f.1 < timeout && triggerAccepts on_value f.2)
        = true := by
  unfold wait
  rw [waitRun_eq_any on_value timeout firings hchron]
  cases hany : firings.any fun f => f.1 < timeout && triggerAccepts on_value f.2
  all_goals simp [hany]

/-- C4 witness: two chronological emissions, the second carrying the
awaited (truthy) value before the timeout, so `wait` returns
normally. -/
theorem wait_ok_iff_witness :
    wait [(5, 7), (20, 3)] (some 3) 1000 = Except.ok () ↔
      ([(5, 7), (20, 3)].any fun f =>
        f.1 < 1000 && triggerAccepts (some 3) f.2) = true :=
  wait_ok_iff [(5, 7), (20, 3)] (some 3) 1000 (by decide)

/-- C7: in every run of `main` — under every combination of flags and
fallible-step outcomes — the bootstrap milestones that occur do so in
the stated order: logging configuration before the user configuration
load, that before the Qt application creation, that before the event
loop start; and in a fully successful default run all four milestones
occur in exactly that order. -/
theorem mainTrace_key_order :
    (∀ o e, isSubseq ((mainTrace o e).filter fun s => keySteps.contains s)
        keySteps = true) ∧
    ((mainTrace ⟨false, false, false⟩
        ⟨true, true, true, UCOutcome.ok, true⟩).filter fun s =>
          keySteps.contains s) = keySteps := by
  refine ⟨?_, rfl⟩
  decide

end Allzpark

namespace Allzpark

/-- C9 counterexample: the claim quantifies over any mapping assigned
to `allzparkconfig.palettes`; with a mapping keyed by the integer `1`,
`load_palettes` returns a dictionary one of whose keys is not a
string. -/
theorem load_palettes_nonstring_key :
    (dictKeys (load_palettes (some [(PyKey.int 1, [])]))).all PyKey.isStr
      = false := by decide

/-- Keys of an update: the updated dict keeps the base keys in place
and appends the updating dict's new keys. -/
theorem dictKeys_dictUpdate (base upd : List (PyKey × Palette)) :
    dictKeys (dictUpdate base upd) =
      dictKeys base
        ++ dictKeys (upd.filter fun kv => !(dictKeys base).contains kv.1) := by
  unfold dictUpdate dictKeys
  rw [List.map_append]
  congr 1
  rw [List.map_map]
  apply List.map_congr_left
  intro kv _
  simp only [Function.comp_apply]
  cases h : List.lookup kv.1 upd <;> simp [h]

/-- Filtering a dict by a predicate on keys filters its key list. -/
theorem dictKeys_filter (l : List (PyKey × Palette)) (q : PyKey → Bool) :
    dictKeys (l.filter fun kv => q kv.1) = (dictKeys l).filter q := by
  induction l with
  | nil => rfl
  | cons kv rest ih =>
      unfold dictKeys at *
      rw [List.filter_cons, List.map_cons, List.filter_cons]
      cases hq : q kv.1 <;> simp [hq, ih]

/-- C9 as amended: for every value of `allzparkconfig.palettes`
(absent or any mapping), `load_palettes` returns a dictionary whose
keys are unique, and those keys are all strings whenever the keys of
the configured mapping are all strings (the built-in `dark`/`light`
keys are). -/
theorem load_palettes_keys (cp : Option (List (PyKey × Palette)))
    (hnodup : (dictKeys (cp.getD [])).Nodup) :
    (dictKeys (load_palettes cp)).Nodup ∧
    ((dictKeys (cp.getD [])).all PyKey.isStr = true →
      (dictKeys (load_palettes cp)).all PyKey.isStr = true) := by
  match cp with
  | none => exact ⟨by decide, fun _ => by decide⟩
  | some [] => exact ⟨by decide, fun _ => by decide⟩
  | some (kv0 :: rest) =>
      simp only [Option.getD] at hnodup
      have hload :
          load_palettes (some (kv0 :: rest)) =
            dictUpdate defaultPalettes (kv0 :: rest) := rfl
      rw [hload, dictKeys_dictUpdate,
        dictKeys_filter (kv0 :: rest)
          (fun k => !(dictKeys defaultPalettes).contains k)]
      constructor
      · apply List.Nodup.append
        · decide
        · exact hnodup.filter _
        · intro a ha hfa
          rw [List.mem_filter] at hfa
          have hnc := hfa.2
          rw [Bool.not_eq_true'] at hnc
          simp only [dictKeys, defaultPalettes, List.map_cons, List.map_nil,
            List.mem_cons, List.not_mem_nil, or_false] at ha
          rcases ha with rfl | rfl <;> exact absurd hnc (by decide)
      · intro hall
        rw [List.all_append]
        refine Bool.and_eq_true_iff.mpr ⟨by decide, ?_⟩
        rw [List.all_eq_true] at hall ⊢
        intro a ha
        exact hall a (List.mem_of_mem_filter ha)

/-- C9 witness: a configured mapping with the single string key
`"extra"` keeps the result's keys unique strings. -/
theorem load_palettes_keys_witness :
    (dictKeys (load_palettes (some [(PyKey.str "extra", [])]))).Nodup ∧
    ((dictKeys ((some [(PyKey.str "extra", [])] :
        Option (List (PyKey × Palette))).getD [])).all PyKey.isStr = true →
      (dictKeys (load_palettes (some [(PyKey.str "extra", [])]))).all
        PyKey.isStr = true) :=
  load_palettes_keys (some [(PyKey.str "extra", [])]) (by decide)

end Allzpark
